import Mathlib

/-!
Shallow embedding of the OVH server-sniper front-end logic
(src/src/components/servers/ServerCard.tsx and the task form schema).
Pure functions are translated directly; the React state updates are
modelled as explicit state-passing over a `CardState` record.
-/

set_option maxRecDepth 4000

namespace OVH

/-- Does the character list start with the pattern list? (JS `String.includes`
at position 0, case-sensitive.) -/
def listStartsWith : List Char → List Char → Bool
  | _, [] => true
  | [], _ :: _ => false
  | a :: as, b :: bs => a = b && listStartsWith as bs

/-- Case-sensitive substring containment over character lists, mirroring the
semantics of JavaScript `String.prototype.includes`. -/
def listContainsSub (pat : List Char) : List Char → Bool
  | [] => listStartsWith [] pat
  | c :: rest => listStartsWith (c :: rest) pat || listContainsSub pat rest

/-- JS `a.includes(pat)`: case-sensitive substring test. -/
def containsSubstr (a pat : String) : Bool :=
  listContainsSub pat.data a.data

/-- JS `a.toLowerCase()` restricted to its ASCII behaviour, which is all the
resolver relies on. -/
def lowerStr (a : String) : String :=
  ⟨a.data.map Char.toLower⟩

/-- Decimal value of a digit run (JS `parseInt` on a digit-only string). -/
def digitsVal (ds : List Char) : Nat :=
  ds.foldl (fun acc c => acc * 10 + (c.toNat - 48)) 0

/-- Attempt of the regex `/(\d+)h/i` at the current position: a non-empty
digit run starting here, immediately followed by `h` or `H`, yields the
captured group — the digit substring itself, as `hourMatch[1]` does. -/
def hourAt (l : List Char) : Option String :=
  let run := l.takeWhile Char.isDigit
  if run.isEmpty then none
  else
    match l.dropWhile Char.isDigit with
    | a :: _ => if a = 'h' ∨ a = 'H' then some ⟨run⟩ else none
    | [] => none

/-- Leftmost match of `/(\d+)h/i` over the whole string: the captured digit
substring of the first digit run immediately followed by `h`/`H` (earlier
positions are tried first, so the full run is captured, matching the
regex's leftmost-match semantics). -/
def findHour : List Char → Option String
  | [] => none
  | c :: rest =>
    match hourAt (c :: rest) with
    | some n => some n
    | none => findHour rest

/-- The normalized availability classification ServerCard computes: the
`availability` field of `getAvailabilityInfo`'s result ('unknown',
'available', 'soon', 'unavailable'). -/
inductive AvailabilityStatus
  | unknown
  | available
  | soon
  | unavailable
  deriving DecidableEq, Repr

/-- Result of `getAvailabilityInfo` (the icon is display-only and omitted). -/
structure AvailInfo where
  availability : AvailabilityStatus
  label : String
  deriving DecidableEq, Repr

/-- The negative-keyword test of ServerCard.tsx lines 216-218:
`availability.includes('unavailable') || availability.includes('out') ||
availability.includes('none')` — note: case-sensitive. -/
def containsNegKeyword (a : String) : Bool :=
  containsSubstr a "unavailable" || containsSubstr a "out" || containsSubstr a "none"

/-- `getAvailabilityInfo` of ServerCard.tsx (lines 179-278), as a function of
the raw availability value looked up for the datacenter. `none` models a
missing entry (JS `undefined`); the earlier branch for a missing whole-plan
map returns the same 'unknown' classification with label "未检查". -/
def getAvailabilityInfo (raw : Option String) : AvailInfo :=
  match raw with
  | none => ⟨.unknown, "未知"⟩
  | some a =>
    if a = "" ∨ a = "unknown" then ⟨.unknown, "未知"⟩
    else if a = "unavailable" then ⟨.unavailable, "无货"⟩
    else if containsNegKeyword a then ⟨.unavailable, "无货"⟩
    else
      let hourMatch := findHour a.data
      let hasHighStock := containsSubstr (lowerStr a) "high"
      let hasLowStock := containsSubstr (lowerStr a) "low"
      match hourMatch with
      | some hours =>
        if digitsVal hours.data ≤ 1 then
          ⟨.available, if hasLowStock then s!"{hours}小时内(库存有限)" else s!"{hours}小时内(可用)"⟩
        else if digitsVal hours.data ≤ 24 then
          ⟨.soon, s!"{hours}小时内可用"⟩
        else
          ⟨.soon, s!"{hours}小时内可用"⟩
      | none =>
        if hasHighStock then ⟨.available, "库存充足"⟩
        else if hasLowStock then ⟨.soon, "库存有限"⟩
        else if a = "available" then ⟨.available, "有货"⟩
        else ⟨.available, a⟩

/-- One selectable add-on option of a configurable family
(`AddonOption` of src/types, as used by ServerCard's option lists). -/
structure ServerOption where
  code : String
  formatted : String
  deriving DecidableEq, Repr

/-- The fields of `FormattedServer` that ServerCard's logic reads. -/
structure FormattedServer where
  name : String
  planCode : String
  memory : String
  storage : String
  bandwidth : String
  vrack : String
  memoryOptions : List ServerOption
  storageOptions : List ServerOption
  bandwidthOptions : List ServerOption
  vrackOptions : List ServerOption
  deriving Repr

/-- The React state of one ServerCard that the confirmation logic touches:
the four selected option codes, the four displayed spec strings, the
configChanged/configConfirmed flags and the selected datacenters. -/
structure CardState where
  selectedMemory : Option String
  selectedStorage : Option String
  selectedBandwidth : Option String
  selectedVrack : Option String
  displayedMemory : String
  displayedStorage : String
  displayedBandwidth : String
  displayedVrack : String
  configChanged : Bool
  configConfirmed : Bool
  selectedDatacenters : List String
  deriving DecidableEq, Repr

/-- An option entry of the payload `getSelectedOptions` builds:
`{ label: family, value: code }`. -/
structure SelectedOption where
  label : String
  value : String
  deriving DecidableEq, Repr

/-- `getSelectedOptions` (ServerCard.tsx lines 290-323): the option codes
currently selected, in the fixed family order, skipping absent families. -/
def getSelectedOptions (s : CardState) : List SelectedOption :=
  (match s.selectedMemory with
    | some v => [SelectedOption.mk "memory" v]
    | none => []) ++
  (match s.selectedStorage with
    | some v => [SelectedOption.mk "storage" v]
    | none => []) ++
  (match s.selectedBandwidth with
    | some v => [SelectedOption.mk "bandwidth" v]
    | none => []) ++
  (match s.selectedVrack with
    | some v => [SelectedOption.mk "vrack" v]
    | none => [])

/-- `handleSelectOption` (ServerCard.tsx lines 326-363). Returns the new
state and the `isRealChange` flag the handler computes. A real change sets
`configChanged` but — per the comment at line 355 — deliberately leaves
`configConfirmed` untouched; reselecting the active code changes nothing.
An unrecognized family falls through the switch: no mutation. -/
def handleSelectOption (s : CardState) (family optionCode displayText : String) :
    CardState × Bool :=
  match family with
  | "memory" =>
    let isRealChange := s.selectedMemory != some optionCode
    ({ s with
        selectedMemory := some optionCode
        displayedMemory := displayText
        configChanged := if isRealChange then true else s.configChanged },
     isRealChange)
  | "storage" =>
    let isRealChange := s.selectedStorage != some optionCode
    ({ s with
        selectedStorage := some optionCode
        displayedStorage := displayText
        configChanged := if isRealChange then true else s.configChanged },
     isRealChange)
  | "bandwidth" =>
    let isRealChange := s.selectedBandwidth != some optionCode
    ({ s with
        selectedBandwidth := some optionCode
        displayedBandwidth := displayText
        configChanged := if isRealChange then true else s.configChanged },
     isRealChange)
  | "vrack" =>
    let isRealChange := s.selectedVrack != some optionCode
    ({ s with
        selectedVrack := some optionCode
        displayedVrack := displayText
        configChanged := if isRealChange then true else s.configChanged },
     isRealChange)
  | _ => (s, false)

/-- The snapshot `handleCheckConfigAvailability` persists to
`localStorage` under `confirmedConfig_{planCode}` on success. -/
structure ConfirmedConfig where
  memoryCode : Option String
  memoryDisplay : String
  storageCode : Option String
  storageDisplay : String
  bandwidthCode : Option String
  bandwidthDisplay : String
  vrackCode : Option String
  vrackDisplay : String
  deriving DecidableEq, Repr

/-- The `confirmedConfig` object built at ServerCard.tsx lines 381-386. -/
def snapshotOf (s : CardState) : ConfirmedConfig :=
  { memoryCode := s.selectedMemory, memoryDisplay := s.displayedMemory
    storageCode := s.selectedStorage, storageDisplay := s.displayedStorage
    bandwidthCode := s.selectedBandwidth, bandwidthDisplay := s.displayedBandwidth
    vrackCode := s.selectedVrack, vrackDisplay := s.displayedVrack }

/-- Variant of the toast notification shown. -/
inductive ToastVariant
  | default
  | destructive
  deriving DecidableEq, Repr

/-- `handleCheckConfigAvailability` (ServerCard.tsx lines 366-404), as a
function of whether the awaited `onCheckAvailability` call resolved
(`checkOk = true`) or rejected. Result: the new state, the snapshot written
to storage (none when nothing is written), and the toast variant shown. -/
def handleCheckConfigAvailability (s : CardState) (checkOk : Bool) :
    CardState × Option ConfirmedConfig × ToastVariant :=
  if checkOk then
    ({ s with configConfirmed := true, configChanged := false },
     some (snapshotOf s), ToastVariant.default)
  else
    (s, none, ToastVariant.destructive)

/-- The disabled condition of the "add to queue" button (ServerCard.tsx
line 1001): submission is permitted iff the configuration is confirmed, at
least one datacenter is selected and no submission is in flight. -/
def submitEnabled (s : CardState) (isAddingToQueue : Bool) : Bool :=
  !(!s.configConfirmed || s.selectedDatacenters.length == 0 || isAddingToQueue)

/-- The `ServerConfig` object built for each datacenter inside
`handleAddToQueue` (ServerCard.tsx lines 468-478). -/
structure ServerConfig where
  name : String
  planCode : String
  options : List SelectedOption
  duration : String
  datacenter : String
  quantity : Nat
  os : String
  maxRetries : Int
  taskInterval : Nat
  deriving DecidableEq, Repr

/-- The per-datacenter config of ServerCard.tsx lines 468-478: the name is
`"{server.name} ({datacenterId})"`, the options are the collected selection,
and duration/quantity/os/maxRetries/taskInterval are the literals the code
hardwires. -/
def makeServerConfig (serverName planCode : String) (options : List SelectedOption)
    (datacenterId : String) : ServerConfig :=
  { name := s!"{serverName} ({datacenterId})"
    planCode := planCode
    options := options
    duration := "P1M"
    datacenter := datacenterId
    quantity := 1
    os := "none_64.en"
    maxRetries := -1
    taskInterval := 60 }

/-- The sequential `for … await apiService.createTask` loop of
`handleAddToQueue` (lines 466-484), with a per-datacenter failure oracle.
Returns the datacenters for which a createTask call was actually issued and
whether the whole loop completed: the first rejected call throws, so the
loop stops right after it. -/
def submitLoop (fails : String → Bool) : List String → List String × Bool
  | [] => ([], true)
  | d :: rest =>
    if fails d then ([d], false)
    else
      let r := submitLoop fails rest
      (d :: r.1, r.2)

/-- `handleAddToQueue` (ServerCard.tsx lines 440-511). Result: the state
after the handler, the datacenters to which a createTask call was issued, and
whether the handler reached its success path. An empty datacenter selection
is rejected up front with zero calls; on success the datacenter selection is
cleared; a thrown createTask lands in the catch block, which shows a failure
toast and leaves every piece of state untouched. -/
def handleAddToQueue (s : CardState) (fails : String → Bool) :
    CardState × List String × Bool :=
  if s.selectedDatacenters.length == 0 then
    (s, [], false)
  else
    let r := submitLoop fails s.selectedDatacenters
    if r.2 then
      ({ s with selectedDatacenters := [] }, r.1, true)
    else
      (s, r.1, false)

/-- The pure spec-building core of `handleAddToQueue`: one `ServerConfig`
per selected datacenter, in selection order, or a validation error (the
"未选择数据中心" toast) when the set is empty. -/
def buildTasks (serverName planCode : String) (options : List SelectedOption)
    (dcs : List String) : Except String (List ServerConfig) :=
  if dcs.length == 0 then
    Except.error "未选择数据中心"
  else
    Except.ok (dcs.map (makeServerConfig serverName planCode options))

/-- Is a JS number an integer (zod's `.int()` refinement)? Modelled over the
rationals: the denominator is 1. -/
def isIntNumber (x : Rat) : Bool :=
  x.den == 1

/-- The `maxRetries` rule of `taskFormSchema` (AddTaskForm, src/unnamed/part_001
lines 40): `z.number().int().min(-1).max(100)`. -/
def maxRetriesAccepts (x : Rat) : Bool :=
  isIntNumber x && decide ((-1 : Rat) ≤ x) && decide (x ≤ (100 : Rat))

/-- The `taskInterval` rule of `taskFormSchema` (AddTaskForm, src/unnamed/part_001
line 41): `z.number().int().min(5).max(600)`. -/
def taskIntervalAccepts (x : Rat) : Bool :=
  isIntNumber x && decide ((5 : Rat) ≤ x) && decide (x ≤ (600 : Rat))

/-- One family's entry of the persisted `confirmedConfig` JSON
(`{ code, display }`, where `code` may be null). -/
structure SavedField where
  code : Option String
  display : String
  deriving DecidableEq, Repr

/-- The shape of the persisted snapshot the init effect reads back
(ServerCard.tsx lines 92-113); each family key may be absent/falsy. -/
structure SavedConfig where
  memory : Option SavedField
  storage : Option SavedField
  bandwidth : Option SavedField
  vrack : Option SavedField
  deriving DecidableEq, Repr

/-- The initial `useState` values of one card (ServerCard.tsx lines 61-78):
no selected codes, the server's base specs displayed, both flags down, no
datacenters selected. -/
def initialCardState (server : FormattedServer) : CardState :=
  { selectedMemory := none
    selectedStorage := none
    selectedBandwidth := none
    selectedVrack := none
    displayedMemory := server.memory
    displayedStorage := server.storage
    displayedBandwidth := server.bandwidth
    displayedVrack := server.vrack
    configChanged := false
    configConfirmed := false
    selectedDatacenters := [] }

/-- The restore branch of the init effect (ServerCard.tsx lines 92-120):
each present family entry overwrites the selected code and displayed text,
then the state is marked confirmed and unchanged. -/
def restoreFromSaved (server : FormattedServer) (cfg : SavedConfig) : CardState :=
  let s0 := initialCardState server
  let s1 := match cfg.memory with
    | some f => { s0 with selectedMemory := f.code, displayedMemory := f.display }
    | none => s0
  let s2 := match cfg.storage with
    | some f => { s1 with selectedStorage := f.code, displayedStorage := f.display }
    | none => s1
  let s3 := match cfg.bandwidth with
    | some f => { s2 with selectedBandwidth := f.code, displayedBandwidth := f.display }
    | none => s2
  let s4 := match cfg.vrack with
    | some f => { s3 with selectedVrack := f.code, displayedVrack := f.display }
    | none => s3
  { s4 with configConfirmed := true, configChanged := false }

/-- The default branch of the init effect (ServerCard.tsx lines 127-167):
for each family with options, the option whose formatted text equals the
server's base spec becomes the selected code; for vrack, a missing match (or
no options at all) displays "无vRack" instead. -/
def defaultInitState (server : FormattedServer) : CardState :=
  let s0 := initialCardState server
  let s1 :=
    if server.memoryOptions.length > 0 then
      match server.memoryOptions.find? (fun opt => opt.formatted == server.memory) with
      | some o => { s0 with selectedMemory := some o.code }
      | none => s0
    else s0
  let s2 :=
    if server.storageOptions.length > 0 then
      match server.storageOptions.find? (fun opt => opt.formatted == server.storage) with
      | some o => { s1 with selectedStorage := some o.code }
      | none => s1
    else s1
  let s3 :=
    if server.bandwidthOptions.length > 0 then
      match server.bandwidthOptions.find? (fun opt => opt.formatted == server.bandwidth) with
      | some o => { s2 with selectedBandwidth := some o.code }
      | none => s2
    else s2
  if server.vrackOptions.length > 0 then
    match server.vrackOptions.find? (fun opt => opt.formatted == server.vrack) with
    | some o => { s3 with selectedVrack := some o.code }
    | none => { s3 with displayedVrack := "无vRack" }
  else
    { s3 with displayedVrack := "无vRack" }

/-- The whole init effect (ServerCard.tsx lines 86-168): if a snapshot
string is stored and parses as JSON, restore it (confirmed); on a missing
snapshot, or when `JSON.parse` throws and the catch block falls through,
use the default selections. `parseJson` stands for `JSON.parse`, returning
`none` where the real call throws. -/
def initCardState (server : FormattedServer) (saved : Option String)
    (parseJson : String → Option SavedConfig) : CardState :=
  match saved with
  | some str =>
    match parseJson str with
    | some cfg => restoreFromSaved server cfg
    | none => defaultInitState server
  | none => defaultInitState server

end OVH

/-- C3 (counterexample): the claim says any letter case of the negative
keywords is classified Unavailable, but `String.includes` is case-sensitive:
the raw string "OUT" falls through every negative check and is classified
Available (fail-open branch), not Unavailable. -/
theorem c3_counterexample :
    OVH.getAvailabilityInfo (some "OUT") =
      ⟨OVH.AvailabilityStatus.available, "OUT"⟩ ∧
    OVH.AvailabilityStatus.available ≠ OVH.AvailabilityStatus.unavailable := by
  decide

/-- C3 (amended): a raw availability string that literally contains one of
the lowercase substrings "unavailable", "out" or "none" (the case-sensitive
test the code performs) is classified Unavailable. -/
theorem c3_amended (s : String) (h : OVH.containsNegKeyword s = true) :
    (OVH.getAvailabilityInfo (some s)).availability =
      OVH.AvailabilityStatus.unavailable := by
  have h0 : ¬(s = "" ∨ s = "unknown") := by
    rintro (rfl | rfl) <;> exact absurd h (by decide)
  simp only [OVH.getAvailabilityInfo]
  rw [if_neg h0]
  by_cases hu : s = "unavailable"
  · rw [if_pos hu]
  · rw [if_neg hu, if_pos h]

/-- C3 (witness): the amended theorem applied to "out of stock". -/
theorem c3_amended_witness :
    (OVH.getAvailabilityInfo (some "out of stock")).availability =
      OVH.AvailabilityStatus.unavailable :=
  c3_amended "out of stock" (by decide)

/-- C1 (counterexample): the claim says an hour count N ≤ 24 is classified
Available, but the code classifies every hour count above 1 as 'soon'
(SoonAvailable): raw "2H" yields 'soon', not 'available'. -/
theorem c1_counterexample :
    OVH.getAvailabilityInfo (some "2H") =
      ⟨OVH.AvailabilityStatus.soon, "2小时内可用"⟩ ∧
    OVH.AvailabilityStatus.soon ≠ OVH.AvailabilityStatus.available := by
  decide

/-- C1 (amended): for a raw string that reaches the positive branch (not
empty/"unknown", no literal negative keyword) whose first digit run
immediately followed by h/H is the captured substring `hs` with numeric
value N = parseInt(hs), the code classifies N ≤ 1 as Available — appending
the limited-stock qualifier to the label exactly when the string also
contains "low" case-insensitively — and every N > 1 (including 2..24) as
SoonAvailable; each label interpolates the captured digit substring
verbatim ("hs小时内可用", so "02h" yields "02小时内可用") with no stock
qualifier for N > 1. -/
theorem c1_amended (s hs : String)
    (h0 : ¬(s = "" ∨ s = "unknown"))
    (h1 : OVH.containsNegKeyword s = false)
    (h2 : OVH.findHour s.data = some hs) :
    (OVH.digitsVal hs.data ≤ 1 → OVH.getAvailabilityInfo (some s) =
      ⟨OVH.AvailabilityStatus.available,
        if OVH.containsSubstr (OVH.lowerStr s) "low" then s!"{hs}小时内(库存有限)"
        else s!"{hs}小时内(可用)"⟩) ∧
    (1 < OVH.digitsVal hs.data → OVH.getAvailabilityInfo (some s) =
      ⟨OVH.AvailabilityStatus.soon, s!"{hs}小时内可用"⟩) := by
  have hu : ¬(s = "unavailable") := by
    rintro rfl; exact absurd h1 (by decide)
  simp only [OVH.getAvailabilityInfo]
  rw [if_neg h0, if_neg hu, if_neg (by simp [h1] : ¬(OVH.containsNegKeyword s = true))]
  simp only [h2]
  constructor
  · intro hn
    rw [if_pos hn]
  · intro hn
    rw [if_neg (by omega : ¬(OVH.digitsVal hs.data ≤ 1))]
    by_cases h24 : OVH.digitsVal hs.data ≤ 24
    · rw [if_pos h24]
    · rw [if_neg h24]

/-- C1 (witness): the amended theorem applied to "72H" (captured digit
substring "72", N = 72 > 1). -/
theorem c1_amended_witness :
    OVH.getAvailabilityInfo (some "72H") =
      ⟨OVH.AvailabilityStatus.soon, "72小时内可用"⟩ :=
  (c1_amended "72H" "72" (by decide) (by decide) (by decide)).2 (by decide)

/-- C7 (confirmed): the resolver is a total function of the optional raw
value; an absent value and the raw value "unknown" (and the empty string,
which JS treats as absent) are classified Unknown, and any positive string
matching none of the recognized patterns — no negative keyword as the code
tests them, no hour count, no "high"/"low" (case-insensitive), not exactly
"available" — is classified Available with the raw string verbatim as the
label (fail open). -/
theorem c7_resolver_total_fail_open (s : String)
    (e0 : s ≠ "") (e1 : s ≠ "unknown")
    (e2 : OVH.containsNegKeyword s = false)
    (e3 : OVH.findHour s.data = none)
    (e4 : OVH.containsSubstr (OVH.lowerStr s) "high" = false)
    (e5 : OVH.containsSubstr (OVH.lowerStr s) "low" = false)
    (e6 : s ≠ "available") :
    OVH.getAvailabilityInfo none = ⟨OVH.AvailabilityStatus.unknown, "未知"⟩ ∧
    OVH.getAvailabilityInfo (some "unknown") =
      ⟨OVH.AvailabilityStatus.unknown, "未知"⟩ ∧
    OVH.getAvailabilityInfo (some "") =
      ⟨OVH.AvailabilityStatus.unknown, "未知"⟩ ∧
    OVH.getAvailabilityInfo (some s) = ⟨OVH.AvailabilityStatus.available, s⟩ := by
  refine ⟨by decide, by decide, by decide, ?_⟩
  have hu : ¬(s = "unavailable") := by
    rintro rfl; exact absurd e2 (by decide)
  have h0 : ¬(s = "" ∨ s = "unknown") := by
    rintro (rfl | rfl) <;> simp_all
  simp only [OVH.getAvailabilityInfo]
  rw [if_neg h0, if_neg hu, if_neg (by simp [e2] : ¬(OVH.containsNegKeyword s = true))]
  simp only [e3]
  rw [if_neg (by simp [e4] : ¬(OVH.containsSubstr (OVH.lowerStr s) "high" = true)),
    if_neg (by simp [e5] : ¬(OVH.containsSubstr (OVH.lowerStr s) "low" = true)),
    if_neg e6]

/-- C7 (witness): the theorem applied to the unrecognized positive string
"coming-soon". -/
theorem c7_resolver_total_fail_open_witness :
    OVH.getAvailabilityInfo none = ⟨OVH.AvailabilityStatus.unknown, "未知"⟩ ∧
    OVH.getAvailabilityInfo (some "unknown") =
      ⟨OVH.AvailabilityStatus.unknown, "未知"⟩ ∧
    OVH.getAvailabilityInfo (some "") =
      ⟨OVH.AvailabilityStatus.unknown, "未知"⟩ ∧
    OVH.getAvailabilityInfo (some "coming-soon") =
      ⟨OVH.AvailabilityStatus.available, "coming-soon"⟩ :=
  c7_resolver_total_fail_open "coming-soon" (by decide) (by decide) (by decide)
    (by decide) (by decide) (by decide) (by decide)

example : OVH.getAvailabilityInfo (some "2H") =
    ⟨.soon, "2小时内可用"⟩ := by decide

example : OVH.getAvailabilityInfo (some "1h-low") =
    ⟨.available, "1小时内(库存有限)"⟩ := by decide

example : OVH.getAvailabilityInfo (some "72H") =
    ⟨.soon, "72小时内可用"⟩ := by decide

example : OVH.getAvailabilityInfo (some "OUT") =
    ⟨.available, "OUT"⟩ := by decide

example : OVH.getAvailabilityInfo (some "low") = ⟨.soon, "库存有限"⟩ := by decide

example : OVH.getAvailabilityInfo (some "unknown") = ⟨.unknown, "未知"⟩ := by decide

example : OVH.getAvailabilityInfo none = ⟨.unknown, "未知"⟩ := by decide

example : OVH.getAvailabilityInfo (some "available") = ⟨.available, "有货"⟩ := by decide

example : OVH.getAvailabilityInfo (some "240x 2h") = ⟨.soon, "2小时内可用"⟩ := by decide

example : OVH.getAvailabilityInfo (some "02h") = ⟨.soon, "02小时内可用"⟩ := by decide

/-- C2 (counterexample): from a confirmed state with one datacenter
selected, a real option change (changed = true) leaves `configConfirmed`
true — the handler deliberately does not revoke confirmation — so the
submission gate is still open immediately after the change, contradicting
the claim that submission is not permitted until a new confirmation. -/
theorem c2_counterexample :
    OVH.handleSelectOption
        { selectedMemory := some "ram-a", selectedStorage := none,
          selectedBandwidth := none, selectedVrack := none,
          displayedMemory := "32GB", displayedStorage := "1TB",
          displayedBandwidth := "1Gbps", displayedVrack := "无vRack",
          configChanged := false, configConfirmed := true,
          selectedDatacenters := ["rbx"] }
        "memory" "ram-b" "64GB" =
      ({ selectedMemory := some "ram-b", selectedStorage := none,
         selectedBandwidth := none, selectedVrack := none,
         displayedMemory := "64GB", displayedStorage := "1TB",
         displayedBandwidth := "1Gbps", displayedVrack := "无vRack",
         configChanged := true, configConfirmed := true,
         selectedDatacenters := ["rbx"] }, true) ∧
    OVH.submitEnabled
        { selectedMemory := some "ram-b", selectedStorage := none,
          selectedBandwidth := none, selectedVrack := none,
          displayedMemory := "64GB", displayedStorage := "1TB",
          displayedBandwidth := "1Gbps", displayedVrack := "无vRack",
          configChanged := true, configConfirmed := true,
          selectedDatacenters := ["rbx"] } false = true := by
  decide

/-- C2 (amended): a changed = true selection performed while the
configuration is confirmed marks the configuration as changed but leaves the
confirmation flag set, and task submission is permitted exactly when the
configuration is confirmed, at least one datacenter is selected and no
submission is in flight — so after confirming and making a real option
change, submission remains permitted without a new confirmation. -/
theorem c2_amended (s : OVH.CardState) (family optionCode displayText : String)
    (hconf : s.configConfirmed = true) :
    ((OVH.handleSelectOption s family optionCode displayText).2 = true →
      (OVH.handleSelectOption s family optionCode displayText).1.configChanged = true) ∧
    (OVH.handleSelectOption s family optionCode displayText).1.configConfirmed = true ∧
    (∀ b : Bool, OVH.submitEnabled
        (OVH.handleSelectOption s family optionCode displayText).1 b = true ↔
      ((OVH.handleSelectOption s family optionCode displayText).1.configConfirmed = true ∧
       (OVH.handleSelectOption s family optionCode displayText).1.selectedDatacenters ≠ [] ∧
       b = false)) := by
  unfold OVH.handleSelectOption OVH.submitEnabled
  split <;> simp_all [List.length_eq_zero]

/-- C2 (witness): the amended theorem applied to a concrete confirmed
state and a real memory change. -/
theorem c2_amended_witness :
    ((OVH.handleSelectOption
        { selectedMemory := some "ram-a", selectedStorage := none,
          selectedBandwidth := none, selectedVrack := none,
          displayedMemory := "32GB", displayedStorage := "1TB",
          displayedBandwidth := "1Gbps", displayedVrack := "无vRack",
          configChanged := false, configConfirmed := true,
          selectedDatacenters := ["rbx"] } "memory" "ram-b" "64GB").2 = true →
      (OVH.handleSelectOption
        { selectedMemory := some "ram-a", selectedStorage := none,
          selectedBandwidth := none, selectedVrack := none,
          displayedMemory := "32GB", displayedStorage := "1TB",
          displayedBandwidth := "1Gbps", displayedVrack := "无vRack",
          configChanged := false, configConfirmed := true,
          selectedDatacenters := ["rbx"] } "memory" "ram-b" "64GB").1.configChanged = true) ∧
    (OVH.handleSelectOption
        { selectedMemory := some "ram-a", selectedStorage := none,
          selectedBandwidth := none, selectedVrack := none,
          displayedMemory := "32GB", displayedStorage := "1TB",
          displayedBandwidth := "1Gbps", displayedVrack := "无vRack",
          configChanged := false, configConfirmed := true,
          selectedDatacenters := ["rbx"] } "memory" "ram-b" "64GB").1.configConfirmed = true ∧
    (∀ b : Bool, OVH.submitEnabled
        (OVH.handleSelectOption
          { selectedMemory := some "ram-a", selectedStorage := none,
            selectedBandwidth := none, selectedVrack := none,
            displayedMemory := "32GB", displayedStorage := "1TB",
            displayedBandwidth := "1Gbps", displayedVrack := "无vRack",
            configChanged := false, configConfirmed := true,
            selectedDatacenters := ["rbx"] } "memory" "ram-b" "64GB").1 b = true ↔
      ((OVH.handleSelectOption
          { selectedMemory := some "ram-a", selectedStorage := none,
            selectedBandwidth := none, selectedVrack := none,
            displayedMemory := "32GB", displayedStorage := "1TB",
            displayedBandwidth := "1Gbps", displayedVrack := "无vRack",
            configChanged := false, configConfirmed := true,
            selectedDatacenters := ["rbx"] } "memory" "ram-b" "64GB").1.configConfirmed = true ∧
       (OVH.handleSelectOption
          { selectedMemory := some "ram-a", selectedStorage := none,
            selectedBandwidth := none, selectedVrack := none,
            displayedMemory := "32GB", displayedStorage := "1TB",
            displayedBandwidth := "1Gbps", displayedVrack := "无vRack",
            configChanged := false, configConfirmed := true,
            selectedDatacenters := ["rbx"] } "memory" "ram-b" "64GB").1.selectedDatacenters ≠ [] ∧
       b = false)) :=
  c2_amended
    { selectedMemory := some "ram-a", selectedStorage := none,
      selectedBandwidth := none, selectedVrack := none,
      displayedMemory := "32GB", displayedStorage := "1TB",
      displayedBandwidth := "1Gbps", displayedVrack := "无vRack",
      configChanged := false, configConfirmed := true,
      selectedDatacenters := ["rbx"] } "memory" "ram-b" "64GB" rfl

/-- C5 (confirmed): when the availability check awaited by
`handleCheckConfigAvailability` rejects, the handler lands in its catch
block: the card state is returned exactly as it was (no transition to
confirmed), nothing is written to storage, and a destructive (failure)
toast is shown. -/
theorem c5_check_failure_preserves_state (s : OVH.CardState) :
    OVH.handleCheckConfigAvailability s false =
      (s, none, OVH.ToastVariant.destructive) := rfl

/-- C9 (confirmed): calling `handleSelectOption` twice in a row with the
same family and option code returns changed = false on the second call,
leaves the selected-options payload (`getSelectedOptions`) unaltered and
fires no downstream confirmation-state transition (neither flag moves);
when the display text is also the same, the state is completely unchanged. -/
theorem c9_reselect_same_option_noop (s : OVH.CardState)
    (family optionCode d1 d2 : String) :
    (OVH.handleSelectOption (OVH.handleSelectOption s family optionCode d1).1
        family optionCode d2).2 = false ∧
    OVH.getSelectedOptions
        (OVH.handleSelectOption (OVH.handleSelectOption s family optionCode d1).1
          family optionCode d2).1 =
      OVH.getSelectedOptions (OVH.handleSelectOption s family optionCode d1).1 ∧
    (OVH.handleSelectOption (OVH.handleSelectOption s family optionCode d1).1
        family optionCode d2).1.configChanged =
      (OVH.handleSelectOption s family optionCode d1).1.configChanged ∧
    (OVH.handleSelectOption (OVH.handleSelectOption s family optionCode d1).1
        family optionCode d2).1.configConfirmed =
      (OVH.handleSelectOption s family optionCode d1).1.configConfirmed ∧
    (d1 = d2 →
      OVH.handleSelectOption (OVH.handleSelectOption s family optionCode d1).1
          family optionCode d2 =
        ((OVH.handleSelectOption s family optionCode d1).1, false)) := by
  unfold OVH.handleSelectOption
  split <;> simp [OVH.getSelectedOptions] <;> rintro rfl <;> rfl

/-- Shape of the sequential submission loop on a failure: every datacenter
before the first failing one is submitted, the failing call itself is
issued, and the loop stops there. -/
theorem submitLoop_stops_at_first_failure (fails : String → Bool)
    (pre : List String) (d : String) (post : List String)
    (hpre : ∀ x ∈ pre, fails x = false) (hd : fails d = true) :
    OVH.submitLoop fails (pre ++ d :: post) = (pre ++ [d], false) := by
  induction pre with
  | nil => simp [OVH.submitLoop, hd]
  | cons a as ih =>
    have ha : fails a = false := hpre a (by simp)
    have ih2 := ih (fun x hx => hpre x (by simp [hx]))
    simp [OVH.submitLoop, ha, ih2]

/-- C4 (counterexample): with datacenters ["gra", "rbx"] selected and the
submission for "gra" rejecting, the handler issues no createTask call for
"rbx" — the loop aborts — contradicting the claim that the remaining
datacenters' submissions are still issued. -/
theorem c4_counterexample :
    OVH.handleAddToQueue
        { selectedMemory := some "ram-a", selectedStorage := none,
          selectedBandwidth := none, selectedVrack := none,
          displayedMemory := "32GB", displayedStorage := "1TB",
          displayedBandwidth := "1Gbps", displayedVrack := "无vRack",
          configChanged := false, configConfirmed := true,
          selectedDatacenters := ["gra", "rbx"] }
        (fun d => d == "gra") =
      ({ selectedMemory := some "ram-a", selectedStorage := none,
         selectedBandwidth := none, selectedVrack := none,
         displayedMemory := "32GB", displayedStorage := "1TB",
         displayedBandwidth := "1Gbps", displayedVrack := "无vRack",
         configChanged := false, configConfirmed := true,
         selectedDatacenters := ["gra", "rbx"] }, ["gra"], false) ∧
    "rbx" ∉ (["gra"] : List String) := by
  decide

/-- C4 (amended): when one datacenter's createTask call rejects, the
sequential loop aborts — the createTask calls for the datacenters after the
failing one are not issued — while the calls already issued before the
failure are not rolled back (they remain in the issued list) and the entire
card state, selection and confirmation included, is returned intact so the
user can retry. -/
theorem c4_amended (s : OVH.CardState) (fails : String → Bool)
    (pre : List String) (d : String) (post : List String)
    (hdc : s.selectedDatacenters = pre ++ d :: post)
    (hpre : ∀ x ∈ pre, fails x = false) (hd : fails d = true) :
    OVH.handleAddToQueue s fails = (s, pre ++ [d], false) := by
  have hloop := submitLoop_stops_at_first_failure fails pre d post hpre hd
  unfold OVH.handleAddToQueue
  rw [hdc, hloop]
  simp

/-- C4 (witness): the amended theorem applied to a concrete selection
["gra", "rbx", "sbg"] whose "rbx" submission fails: only ["gra", "rbx"] are
issued and the state is unchanged. -/
theorem c4_amended_witness :
    OVH.handleAddToQueue
        { selectedMemory := some "ram-a", selectedStorage := none,
          selectedBandwidth := none, selectedVrack := none,
          displayedMemory := "32GB", displayedStorage := "1TB",
          displayedBandwidth := "1Gbps", displayedVrack := "无vRack",
          configChanged := false, configConfirmed := true,
          selectedDatacenters := ["gra", "rbx", "sbg"] }
        (fun d => d == "rbx") =
      ({ selectedMemory := some "ram-a", selectedStorage := none,
         selectedBandwidth := none, selectedVrack := none,
         displayedMemory := "32GB", displayedStorage := "1TB",
         displayedBandwidth := "1Gbps", displayedVrack := "无vRack",
         configChanged := false, configConfirmed := true,
         selectedDatacenters := ["gra", "rbx", "sbg"] }, ["gra", "rbx"], false) :=
  c4_amended
    { selectedMemory := some "ram-a", selectedStorage := none,
      selectedBandwidth := none, selectedVrack := none,
      displayedMemory := "32GB", displayedStorage := "1TB",
      displayedBandwidth := "1Gbps", displayedVrack := "无vRack",
      configChanged := false, configConfirmed := true,
      selectedDatacenters := ["gra", "rbx", "sbg"] }
    (fun d => d == "rbx") ["gra"] "rbx" ["sbg"] rfl (by decide) (by decide)

/-- C8 (confirmed): for a non-empty datacenter selection, the build step
produces exactly one ServerConfig per selected datacenter, in the
selection's order (the datacenter fields of the specs, in order, are the
selection itself), each named "{server name} ({datacenter})" and each
carrying the identical options snapshot and the identical retry policy
(maxRetries = -1, taskInterval = 60); an empty selection yields a
validation error and zero specs. -/
theorem c8_build_one_spec_per_datacenter (serverName planCode : String)
    (options : List OVH.SelectedOption) (dcs : List String) :
    (dcs = [] → OVH.buildTasks serverName planCode options dcs =
      Except.error "未选择数据中心") ∧
    (dcs ≠ [] → ∃ specs : List OVH.ServerConfig,
      OVH.buildTasks serverName planCode options dcs = Except.ok specs ∧
      specs.length = dcs.length ∧
      specs.map OVH.ServerConfig.datacenter = dcs ∧
      ∀ spec ∈ specs,
        spec.name = s!"{serverName} ({spec.datacenter})" ∧
        spec.planCode = planCode ∧
        spec.options = options ∧
        spec.duration = "P1M" ∧
        spec.quantity = 1 ∧
        spec.os = "none_64.en" ∧
        spec.maxRetries = -1 ∧
        spec.taskInterval = 60) := by
  constructor
  · rintro rfl
    rfl
  · intro hne
    refine ⟨dcs.map (OVH.makeServerConfig serverName planCode options), ?_, ?_, ?_, ?_⟩
    · unfold OVH.buildTasks
      rw [if_neg (by simp [List.length_eq_zero, hne])]
    · simp
    · simp only [List.map_map, Function.comp_def, OVH.makeServerConfig]
      exact List.map_id dcs
    · intro spec hspec
      rcases List.mem_map.mp hspec with ⟨dc, _, rfl⟩
      exact ⟨rfl, rfl, rfl, rfl, rfl, rfl, rfl, rfl⟩

/-- C6 (confirmed): the task-form schema accepts `maxRetries` exactly for
the integers in [-1, 100] and `taskInterval` exactly for the integers in
[5, 600]; in particular it rejects -2, 101, 4 and 601 and accepts -1
(unlimited) and 5. -/
theorem c6_retry_policy_bounds :
    (∀ x : Rat, OVH.maxRetriesAccepts x = true ↔
      ∃ n : Int, x = (n : Rat) ∧ -1 ≤ n ∧ n ≤ 100) ∧
    (∀ x : Rat, OVH.taskIntervalAccepts x = true ↔
      ∃ n : Int, x = (n : Rat) ∧ 5 ≤ n ∧ n ≤ 600) ∧
    OVH.maxRetriesAccepts (-2) = false ∧
    OVH.maxRetriesAccepts 101 = false ∧
    OVH.taskIntervalAccepts 4 = false ∧
    OVH.taskIntervalAccepts 601 = false ∧
    OVH.maxRetriesAccepts (-1) = true ∧
    OVH.taskIntervalAccepts 5 = true := by
  refine ⟨?_, ?_, by decide, by decide, by decide, by decide, by decide, by decide⟩
  · intro x
    simp only [OVH.maxRetriesAccepts, OVH.isIntNumber, Bool.and_eq_true, beq_iff_eq,
      decide_eq_true_eq]
    constructor
    · rintro ⟨⟨hden, h1⟩, h2⟩
      have hx : ((x.num : Rat)) = x := (Rat.den_eq_one_iff x).mp hden
      refine ⟨x.num, hx.symm, ?_, ?_⟩
      · rw [← hx] at h1; exact_mod_cast h1
      · rw [← hx] at h2; exact_mod_cast h2
    · rintro ⟨n, rfl, h1, h2⟩
      exact ⟨⟨Rat.den_intCast n, by exact_mod_cast h1⟩, by exact_mod_cast h2⟩
  · intro x
    simp only [OVH.taskIntervalAccepts, OVH.isIntNumber, Bool.and_eq_true, beq_iff_eq,
      decide_eq_true_eq]
    constructor
    · rintro ⟨⟨hden, h1⟩, h2⟩
      have hx : ((x.num : Rat)) = x := (Rat.den_eq_one_iff x).mp hden
      refine ⟨x.num, hx.symm, ?_, ?_⟩
      · rw [← hx] at h1; exact_mod_cast h1
      · rw [← hx] at h2; exact_mod_cast h2
    · rintro ⟨n, rfl, h1, h2⟩
      exact ⟨⟨Rat.den_intCast n, by exact_mod_cast h1⟩, by exact_mod_cast h2⟩

/-- The default-initialization path never marks the configuration
confirmed. -/
theorem defaultInitState_not_confirmed (server : OVH.FormattedServer) :
    (OVH.defaultInitState server).configConfirmed = false := by
  simp only [OVH.defaultInitState, OVH.initialCardState]
  repeat' split
  all_goals rfl

/-- C10 (confirmed): when the persisted snapshot string exists but is not
parseable as JSON (`JSON.parse` throws, modelled by `parseJson` returning
`none`), initialization does not fail: it produces exactly the state it
would produce with no snapshot saved — the plan's default option selections
— and the confirmation flag starts down (Default, not Confirmed). -/
theorem c10_unparseable_snapshot_falls_back (server : OVH.FormattedServer)
    (str : String) (parseJson : String → Option OVH.SavedConfig)
    (h : parseJson str = none) :
    OVH.initCardState server (some str) parseJson = OVH.defaultInitState server ∧
    OVH.initCardState server (some str) parseJson =
      OVH.initCardState server none parseJson ∧
    (OVH.initCardState server (some str) parseJson).configConfirmed = false := by
  have hs : OVH.initCardState server (some str) parseJson =
      OVH.defaultInitState server := by
    simp only [OVH.initCardState, h]
  exact ⟨hs, hs.trans rfl, hs ▸ defaultInitState_not_confirmed server⟩

/-- C10 (witness): the theorem applied to a concrete server, the
non-JSON snapshot string "{corrupt" and a parse function rejecting it. -/
theorem c10_unparseable_snapshot_falls_back_witness :
    OVH.initCardState
        { name := "KS-1", planCode := "ks-1", memory := "32GB", storage := "1TB",
          bandwidth := "1Gbps", vrack := "none",
          memoryOptions := [{ code := "ram-32", formatted := "32GB" }],
          storageOptions := [], bandwidthOptions := [], vrackOptions := [] }
        (some "\x7bcorrupt") (fun _ => none) =
      OVH.defaultInitState
        { name := "KS-1", planCode := "ks-1", memory := "32GB", storage := "1TB",
          bandwidth := "1Gbps", vrack := "none",
          memoryOptions := [{ code := "ram-32", formatted := "32GB" }],
          storageOptions := [], bandwidthOptions := [], vrackOptions := [] } ∧
    OVH.initCardState
        { name := "KS-1", planCode := "ks-1", memory := "32GB", storage := "1TB",
          bandwidth := "1Gbps", vrack := "none",
          memoryOptions := [{ code := "ram-32", formatted := "32GB" }],
          storageOptions := [], bandwidthOptions := [], vrackOptions := [] }
        (some "\x7bcorrupt") (fun _ => none) =
      OVH.initCardState
        { name := "KS-1", planCode := "ks-1", memory := "32GB", storage := "1TB",
          bandwidth := "1Gbps", vrack := "none",
          memoryOptions := [{ code := "ram-32", formatted := "32GB" }],
          storageOptions := [], bandwidthOptions := [], vrackOptions := [] }
        none (fun _ => none) ∧
    (OVH.initCardState
        { name := "KS-1", planCode := "ks-1", memory := "32GB", storage := "1TB",
          bandwidth := "1Gbps", vrack := "none",
          memoryOptions := [{ code := "ram-32", formatted := "32GB" }],
          storageOptions := [], bandwidthOptions := [], vrackOptions := [] }
        (some "\x7bcorrupt") (fun _ => none)).configConfirmed = false :=
  c10_unparseable_snapshot_falls_back
    { name := "KS-1", planCode := "ks-1", memory := "32GB", storage := "1TB",
      bandwidth := "1Gbps", vrack := "none",
      memoryOptions := [{ code := "ram-32", formatted := "32GB" }],
      storageOptions := [], bandwidthOptions := [], vrackOptions := [] }
    "\x7bcorrupt" (fun _ => none) rfl
